import Mathlib

/-!
Verification of the zf_log logging facility (src/zf_log/zf_log.h) against its
specification. The header defines the severity-level constants, the
compile-time level selection, the compile-time gate `ZF_LOG_ALLOW`, the
runtime gate `ZF_LOG_OUTPUT`, and the per-level logging macros. The companion
implementation file (zf_log.c) is not part of src/, so the behaviour of the
write/dispatch functions, the tag-prefix resolution and the output-level
setter is modelled from the specification where noted; everything else is a
direct shallow embedding of the header.

A log call is modelled as a function from the compile-time configuration
(NDEBUG flag, compile-time level), the process-wide runtime state, the call
level and the call site to the finite list of observable events the call
performs (argument evaluation, sink invocation, process abort). A compiled-out
or runtime-filtered call produces the empty event list.
-/

/-- Severity level constant, zf_log.h line 34. -/
def ZF_LOG_VERBOSE : Int := 1

/-- Severity level constant, zf_log.h line 35. -/
def ZF_LOG_DEBUG : Int := 2

/-- Severity level constant, zf_log.h line 36. -/
def ZF_LOG_INFO : Int := 3

/-- Severity level constant, zf_log.h line 37. -/
def ZF_LOG_WARN : Int := 4

/-- Severity level constant, zf_log.h line 38. -/
def ZF_LOG_ERROR : Int := 5

/-- Severity level constant, zf_log.h line 39. -/
def ZF_LOG_FATAL : Int := 6

/-- Sentinel level constant, zf_log.h line 40. -/
def ZF_LOG_NONE : Int := 0xFFFF

/-- Compile-time level selection, zf_log.h lines 70-80: the per-unit override
ZF_LOG_LEVEL if defined, else the project default ZF_LOG_DEF_LEVEL if
defined, else ZF_LOG_INFO when NDEBUG is defined and ZF_LOG_DEBUG otherwise.
The two Option arguments model whether each macro is defined and, if so, its
value; the Bool models whether NDEBUG is defined. -/
def _ZF_LOG_LEVEL : Option Int → Option Int → Bool → Int
  | some l, _, _ => l
  | none, some l, _ => l
  | none, none, true => ZF_LOG_INFO
  | none, none, false => ZF_LOG_DEBUG

/-- Compile-time tag selection, zf_log.h lines 97-103: ZF_LOG_TAG if defined,
else ZF_LOG_DEF_TAG if defined, else 0 (no tag), modelled as none. -/
def _ZF_LOG_TAG : Option String → Option String → Option String
  | some t, _ => some t
  | none, some t => some t
  | none, none => none

/-- Compile-time gate, zf_log.h line 172: ZF_LOG_ALLOW(lvl) is
(lvl) >= _ZF_LOG_LEVEL. The second argument is the resolved _ZF_LOG_LEVEL. -/
def ZF_LOG_ALLOW (lvl level : Int) : Bool := decide (level ≤ lvl)

/-- Runtime gate, zf_log.h lines 190-191: ZF_LOG_OUTPUT(lvl) is
ZF_LOG_ALLOW(lvl) && (lvl) >= _zf_log_output_lvl. The third argument is the
current value of the global _zf_log_output_lvl. -/
def ZF_LOG_OUTPUT (lvl level out : Int) : Bool :=
  ZF_LOG_ALLOW lvl level && decide (out ≤ lvl)

/-- Observable events of one log call: evaluation of the call arguments,
invocation of the registered sink with (level, line, length), and process
termination via abort. -/
inductive Event : Type where
  | argsEvaluated : Event
  | sinkCalled : Int → String → Nat → Event
  | aborted : Event
deriving DecidableEq, Repr

/-- Call-site data of one log statement: the enclosing function name
(__FUNCTION__), the file:line location string, and the resolved _ZF_LOG_TAG
of the translation unit (none when no tag is configured). -/
structure CallSite where
  func : String
  loc : String
  tag : Option String
deriving DecidableEq, Repr

/-- Process-wide mutable state of the facility: the runtime output level
(the global _zf_log_output_lvl), the tag prefix set by zf_log_set_tag_prefix
(none or empty meaning disabled), and whether a sink callback is registered
by zf_log_set_output_callback. -/
structure ZfLogState where
  output_lvl : Int
  pfx : Option String
  callback : Bool
deriving DecidableEq, Repr

/-- Modelled from the spec: zf_log_set_output_level is declared at zf_log.h
line 119 but implemented in zf_log.c, which is absent from src/; per section
4.4 of the spec it updates the Runtime Output Threshold unconditionally. -/
def zf_log_set_output_level (st : ZfLogState) (lvl : Int) : ZfLogState :=
  { st with output_lvl := lvl }

/-- Modelled from the spec: the tag resolution performed inside zf_log.c
(absent from src/). Per section 4.2 and zf_log.h lines 110-112, a non-null
non-empty prefix is prepended to the call-site tag separated by a dot; with
no (or an empty) prefix the tag is used as is; with an absent tag the result
is just the prefix, or nothing. -/
def effective_tag : Option String → Option String → Option String
  | some p, some t => if p = "" then some t else some (p ++ "." ++ t)
  | some p, none => if p = "" then none else some p
  | none, t => t

/-- Modelled from the spec: the line rendering performed inside zf_log.c
(absent from src/). Per section 4.3 the line carries the optional call-site
data (function name and file:line, verbose variant only), the effective tag
and the formatted message, terminated by a line feed. -/
def render_line (cs : Option (String × String)) (etag : Option String)
    (msg : String) : String :=
  (match cs with
   | some fl => fl.1 ++ " " ++ fl.2 ++ " "
   | none => "") ++
  (match etag with
   | some t => t ++ " "
   | none => "") ++ msg ++ "\n"

/-- Modelled from the spec: the dispatch stage of zf_log.c (absent from
src/). Per zf_log.h lines 121-131 the registered sink is called once with the
level, the rendered zero-terminated line and the number of bytes before the
line terminator; per zf_log.h line 16 abort() is called after printing a
FATAL message. With no sink registered, dispatch is a silent no-op. -/
def zf_log_dispatch (st : ZfLogState) (cs : Option (String × String))
    (lvl : Int) (tag : Option String) (msg : String) : List Event :=
  let line := render_line cs (effective_tag st.pfx tag) msg
  (if st.callback then [Event.sinkCalled lvl line (line.length - 1)] else [])
    ++ (if lvl = ZF_LOG_FATAL then [Event.aborted] else [])

/-- Modelled from the spec: _zf_log_write_d, declared at zf_log.h lines
150-152 and implemented in zf_log.c (absent from src/): the verbose-variant
writer taking the function name and location alongside level, tag and
message. -/
def _zf_log_write_d (st : ZfLogState) (func loc : String) (lvl : Int)
    (tag : Option String) (msg : String) : List Event :=
  zf_log_dispatch st (some (func, loc)) lvl tag msg

/-- Modelled from the spec: _zf_log_write, declared at zf_log.h lines 153-154
and implemented in zf_log.c (absent from src/): the compact-variant writer
taking no call-site data. -/
def _zf_log_write (st : ZfLogState) (lvl : Int) (tag : Option String)
    (msg : String) : List Event :=
  zf_log_dispatch st none lvl tag msg

/-- The _ZF_LOG_IMP macro, zf_log.h lines 199-213: test ZF_LOG_OUTPUT(lvl)
and, only when it holds, evaluate the arguments and call _zf_log_write
(NDEBUG defined) or _zf_log_write_d with __FUNCTION__ and
__FILE__ ":" __LINE__ (NDEBUG undefined). -/
def _ZF_LOG_IMP (ndebug : Bool) (level : Int) (st : ZfLogState) (lvl : Int)
    (cs : CallSite) (msg : String) : List Event :=
  if ZF_LOG_OUTPUT lvl level st.output_lvl then
    Event.argsEvaluated ::
      (if ndebug then _zf_log_write st lvl cs.tag msg
       else _zf_log_write_d st cs.func cs.loc lvl cs.tag msg)
  else []

/-- The _ZF_LOG_UNUSED macro, zf_log.h lines 217-218: a statement whose body
sits under if (0), so it performs no effects and evaluates no arguments. -/
def _ZF_LOG_UNUSED : List Event := []

/-- A log statement at level lvl in a unit with resolved level `level`,
zf_log.h lines 220-260: when ZF_LOG_ALLOW holds at compile time the statement
expands to _ZF_LOG_IMP, otherwise to _ZF_LOG_UNUSED. Each macro ZF_LOGV ..
ZF_LOGF is this function applied at its fixed level. -/
def zf_logCall (ndebug : Bool) (level : Int) (st : ZfLogState) (lvl : Int)
    (cs : CallSite) (msg : String) : List Event :=
  if ZF_LOG_ALLOW lvl level then _ZF_LOG_IMP ndebug level st lvl cs msg
  else _ZF_LOG_UNUSED

/-- The ZF_LOGV macro, zf_log.h lines 220-225. -/
def ZF_LOGV (ndebug : Bool) (level : Int) (st : ZfLogState) (cs : CallSite)
    (msg : String) : List Event :=
  zf_logCall ndebug level st ZF_LOG_VERBOSE cs msg

/-- The ZF_LOGD macro, zf_log.h lines 227-232. -/
def ZF_LOGD (ndebug : Bool) (level : Int) (st : ZfLogState) (cs : CallSite)
    (msg : String) : List Event :=
  zf_logCall ndebug level st ZF_LOG_DEBUG cs msg

/-- The ZF_LOGI macro, zf_log.h lines 234-239. -/
def ZF_LOGI (ndebug : Bool) (level : Int) (st : ZfLogState) (cs : CallSite)
    (msg : String) : List Event :=
  zf_logCall ndebug level st ZF_LOG_INFO cs msg

/-- The ZF_LOGW macro, zf_log.h lines 241-246. -/
def ZF_LOGW (ndebug : Bool) (level : Int) (st : ZfLogState) (cs : CallSite)
    (msg : String) : List Event :=
  zf_logCall ndebug level st ZF_LOG_WARN cs msg

/-- The ZF_LOGE macro, zf_log.h lines 248-253. -/
def ZF_LOGE (ndebug : Bool) (level : Int) (st : ZfLogState) (cs : CallSite)
    (msg : String) : List Event :=
  zf_logCall ndebug level st ZF_LOG_ERROR cs msg

/-- The ZF_LOGF macro, zf_log.h lines 255-260. -/
def ZF_LOGF (ndebug : Bool) (level : Int) (st : ZfLogState) (cs : CallSite)
    (msg : String) : List Event :=
  zf_logCall ndebug level st ZF_LOG_FATAL cs msg

/-- Number of sink invocations in an event list. -/
def countSink : List Event → Nat
  | [] => 0
  | Event.sinkCalled _ _ _ :: es => countSink es + 1
  | _ :: es => countSink es

/-- One string occurs inside another. -/
def strContains (s t : String) : Prop := ∃ a b, s = a ++ t ++ b

/-! ## Helper lemmas -/

/-- Closed form of one log call: the gates collapse to
level <= lvl and output_lvl <= lvl; when they hold, the arguments are
evaluated and the dispatch stage runs (sink if registered, abort if FATAL);
otherwise nothing happens. -/
theorem zf_logCall_eq (ndebug : Bool) (level : Int) (st : ZfLogState)
    (lvl : Int) (cs : CallSite) (msg : String) :
    zf_logCall ndebug level st lvl cs msg =
      if level ≤ lvl ∧ st.output_lvl ≤ lvl then
        Event.argsEvaluated ::
          ((if st.callback then
              [Event.sinkCalled lvl
                (render_line (if ndebug then none else some (cs.func, cs.loc))
                  (effective_tag st.pfx cs.tag) msg)
                ((render_line (if ndebug then none else some (cs.func, cs.loc))
                  (effective_tag st.pfx cs.tag) msg).length - 1)]
            else [])
          ++ (if lvl = ZF_LOG_FATAL then [Event.aborted] else []))
      else [] := by
  unfold zf_logCall _ZF_LOG_IMP _zf_log_write _zf_log_write_d zf_log_dispatch
    _ZF_LOG_UNUSED ZF_LOG_OUTPUT ZF_LOG_ALLOW
  by_cases h1 : level ≤ lvl
  · by_cases h2 : st.output_lvl ≤ lvl
    · cases ndebug <;> simp [h1, h2]
    · simp [h1, h2]
  · simp [h1]

theorem countSink_append (a b : List Event) :
    countSink (a ++ b) = countSink a + countSink b := by
  induction a with
  | nil => simp [countSink]
  | cons e es ih => cases e <;> (simp [countSink, ih]; try omega)

theorem zf_logCall_eq_nil_iff (ndebug : Bool) (level : Int) (st : ZfLogState)
    (lvl : Int) (cs : CallSite) (msg : String) :
    zf_logCall ndebug level st lvl cs msg = [] ↔
      ¬(level ≤ lvl ∧ st.output_lvl ≤ lvl) := by
  rw [zf_logCall_eq]
  by_cases h : level ≤ lvl ∧ st.output_lvl ≤ lvl
  · simp [h]
  · simp [h]

/-! ## Claims -/

/-- Claim C1: a log call at level lvl reaches the write/dispatch stage if and
only if ZF_LOG_OUTPUT holds, which holds if and only if the compile-time gate
ZF_LOG_ALLOW admits lvl and lvl is at least the runtime output level; hence
emission happens exactly when lvl is at least max(level, output_lvl). -/
theorem zf_log_C1_runtime_emission_iff (ndebug : Bool) (level : Int)
    (st : ZfLogState) (lvl : Int) (cs : CallSite) (msg : String) :
    (zf_logCall ndebug level st lvl cs msg ≠ [] ↔
      ZF_LOG_OUTPUT lvl level st.output_lvl = true) ∧
    (ZF_LOG_OUTPUT lvl level st.output_lvl = true ↔
      ZF_LOG_ALLOW lvl level = true ∧ st.output_lvl ≤ lvl) ∧
    (zf_logCall ndebug level st lvl cs msg ≠ [] ↔
      max level st.output_lvl ≤ lvl) := by
  have hgate : ZF_LOG_OUTPUT lvl level st.output_lvl = true ↔
      level ≤ lvl ∧ st.output_lvl ≤ lvl := by
    simp [ZF_LOG_OUTPUT, ZF_LOG_ALLOW]
  refine ⟨?_, ?_, ?_⟩
  · rw [Ne, zf_logCall_eq_nil_iff, hgate]
    exact not_not
  · rw [hgate]
    simp [ZF_LOG_ALLOW]
  · rw [Ne, zf_logCall_eq_nil_iff, not_not, max_le_iff]

/-- Claim C2: for a level below the compile-time floor the logging statement
expands to _ZF_LOG_UNUSED, so the call performs no observable effect, never
invokes the sink and evaluates none of its arguments: its event list is
empty. -/
theorem zf_log_C2_compiled_out_is_noop (ndebug : Bool) (level : Int)
    (st : ZfLogState) (lvl : Int) (cs : CallSite) (msg : String)
    (h : lvl < level) :
    zf_logCall ndebug level st lvl cs msg = [] := by
  rw [zf_logCall_eq_nil_iff]
  intro hc
  omega

/-- Witness for claim C2 at the concrete level DEBUG under floor INFO. -/
theorem zf_log_C2_witness :
    ZF_LOG_DEBUG < ZF_LOG_INFO ∧
      zf_logCall false ZF_LOG_INFO ⟨1, none, true⟩ ZF_LOG_DEBUG
        ⟨"main", "main.c:10", some "NET"⟩ "msg" = [] :=
  ⟨by decide,
    zf_log_C2_compiled_out_is_noop false ZF_LOG_INFO ⟨1, none, true⟩
      ZF_LOG_DEBUG ⟨"main", "main.c:10", some "NET"⟩ "msg" (by decide)⟩

/-- Claim C3: setting the runtime output level to a value below the
compile-time floor gives exactly the same behaviour as setting it to the
floor itself, and under it a call is emitted if and only if its level reaches
the floor. -/
theorem zf_log_C3_low_threshold_same_as_floor (ndebug : Bool) (level t : Int)
    (st : ZfLogState) (lvl : Int) (cs : CallSite) (msg : String)
    (h : t < level) :
    (zf_logCall ndebug level (zf_log_set_output_level st t) lvl cs msg =
      zf_logCall ndebug level (zf_log_set_output_level st level) lvl cs msg) ∧
    (zf_logCall ndebug level (zf_log_set_output_level st t) lvl cs msg ≠ [] ↔
      level ≤ lvl) := by
  constructor
  · rw [zf_logCall_eq, zf_logCall_eq]
    simp only [zf_log_set_output_level]
    by_cases h1 : level ≤ lvl
    · have h2 : t ≤ lvl := by omega
      simp [h1, h2]
    · simp [h1]
  · rw [Ne, zf_logCall_eq_nil_iff, not_not]
    simp only [zf_log_set_output_level]
    constructor
    · exact fun hc => hc.1
    · exact fun hc => ⟨hc, by omega⟩

/-- Witness for claim C3: threshold VERBOSE below floor INFO behaves as
threshold INFO. -/
theorem zf_log_C3_witness :
    ZF_LOG_VERBOSE < ZF_LOG_INFO ∧
      ((zf_logCall false ZF_LOG_INFO
          (zf_log_set_output_level ⟨2, none, true⟩ ZF_LOG_VERBOSE)
          ZF_LOG_WARN ⟨"f", "a.c:1", none⟩ "m" =
        zf_logCall false ZF_LOG_INFO
          (zf_log_set_output_level ⟨2, none, true⟩ ZF_LOG_INFO)
          ZF_LOG_WARN ⟨"f", "a.c:1", none⟩ "m") ∧
      (zf_logCall false ZF_LOG_INFO
          (zf_log_set_output_level ⟨2, none, true⟩ ZF_LOG_VERBOSE)
          ZF_LOG_WARN ⟨"f", "a.c:1", none⟩ "m" ≠ [] ↔
        ZF_LOG_INFO ≤ ZF_LOG_WARN)) :=
  ⟨by decide,
    zf_log_C3_low_threshold_same_as_floor false ZF_LOG_INFO ZF_LOG_VERBOSE
      ⟨2, none, true⟩ ZF_LOG_WARN ⟨"f", "a.c:1", none⟩ "m" (by decide)⟩

/-- Claim C10: the emit/suppress decision of a call and the number of sink
invocations it performs depend only on the call level, the compile-time floor
and the runtime state shared by both calls (output level and sink
registration); tag, tag prefix, call-site data and message are irrelevant. -/
theorem zf_log_C10_decision_depends_only_on_levels (ndebug : Bool)
    (level out : Int) (cb : Bool) (p1 p2 : Option String) (lvl : Int)
    (cs1 cs2 : CallSite) (m1 m2 : String) :
    (zf_logCall ndebug level ⟨out, p1, cb⟩ lvl cs1 m1 = [] ↔
      zf_logCall ndebug level ⟨out, p2, cb⟩ lvl cs2 m2 = []) ∧
    countSink (zf_logCall ndebug level ⟨out, p1, cb⟩ lvl cs1 m1) =
      countSink (zf_logCall ndebug level ⟨out, p2, cb⟩ lvl cs2 m2) := by
  constructor
  · rw [zf_logCall_eq_nil_iff, zf_logCall_eq_nil_iff]
  · rw [zf_logCall_eq, zf_logCall_eq]
    by_cases h : level ≤ lvl ∧ out ≤ lvl
    · have h1 : (⟨out, p1, cb⟩ : ZfLogState).output_lvl ≤ lvl := h.2
      have h2 : (⟨out, p2, cb⟩ : ZfLogState).output_lvl ≤ lvl := h.2
      simp only [h.1, h1, h2, and_self, if_true, true_and]
      cases cb <;> by_cases hf : lvl = ZF_LOG_FATAL <;>
        simp [hf, countSink, countSink_append]
    · simp only [ZfLogState.output_lvl] at h ⊢
      simp [h]

/-- The rendered line contains the message. -/
theorem strContains_render_msg (m : Option (String × String))
    (etag : Option String) (msg : String) :
    strContains (render_line m etag msg) msg := by
  cases m with
  | none =>
    cases etag with
    | none => exact ⟨"" ++ "", "\n", rfl⟩
    | some tg => exact ⟨"" ++ (tg ++ " "), "\n", rfl⟩
  | some fl =>
    cases etag with
    | none => exact ⟨fl.1 ++ " " ++ fl.2 ++ " " ++ "", "\n", rfl⟩
    | some tg => exact ⟨fl.1 ++ " " ++ fl.2 ++ " " ++ (tg ++ " "), "\n", rfl⟩

/-- The rendered line contains the effective tag when one is present. -/
theorem strContains_render_tag (m : Option (String × String))
    (tg msg : String) :
    strContains (render_line m (some tg) msg) tg := by
  cases m with
  | none =>
    exact ⟨"", " " ++ msg ++ "\n",
      by simp [render_line, String.append_assoc, String.empty_append]⟩
  | some fl =>
    exact ⟨fl.1 ++ " " ++ fl.2 ++ " ", " " ++ msg ++ "\n",
      by simp [render_line, String.append_assoc]⟩

/-- The rendered line ends in a line feed, and the reported length is the
length of the part before it. -/
theorem render_line_shape (m : Option (String × String))
    (etag : Option String) (msg : String) :
    ∃ body, render_line m etag msg = body ++ "\n" ∧
      (render_line m etag msg).length - 1 = body.length := by
  refine ⟨(match m with
    | some fl => fl.1 ++ " " ++ fl.2 ++ " "
    | none => "") ++
    (match etag with
    | some t => t ++ " "
    | none => "") ++ msg, rfl, ?_⟩
  rw [show render_line m etag msg = ((match m with
    | some fl => fl.1 ++ " " ++ fl.2 ++ " "
    | none => "") ++
    (match etag with
    | some t => t ++ " "
    | none => "") ++ msg) ++ "\n" from rfl]
  rw [String.length_append]
  have h : ("\n" : String).length = 1 := rfl
  rw [h]
  omega

/-- Claim C4: the level constants are strictly increasing with NONE above
every real level, and a call at any real level VERBOSE..FATAL after the
output level has been set to NONE is suppressed entirely: no event occurs and
the sink is never invoked. -/
theorem zf_log_C4_none_suppresses_all_real_levels (ndebug : Bool)
    (level : Int) (st : ZfLogState) (lvl : Int) (cs : CallSite) (msg : String)
    (_h1 : ZF_LOG_VERBOSE ≤ lvl) (h2 : lvl ≤ ZF_LOG_FATAL) :
    (ZF_LOG_VERBOSE < ZF_LOG_DEBUG ∧ ZF_LOG_DEBUG < ZF_LOG_INFO ∧
      ZF_LOG_INFO < ZF_LOG_WARN ∧ ZF_LOG_WARN < ZF_LOG_ERROR ∧
      ZF_LOG_ERROR < ZF_LOG_FATAL ∧ ZF_LOG_FATAL < ZF_LOG_NONE) ∧
    zf_logCall ndebug level (zf_log_set_output_level st ZF_LOG_NONE)
      lvl cs msg = [] ∧
    countSink (zf_logCall ndebug level
      (zf_log_set_output_level st ZF_LOG_NONE) lvl cs msg) = 0 := by
  have hnil : zf_logCall ndebug level
      (zf_log_set_output_level st ZF_LOG_NONE) lvl cs msg = [] := by
    rw [zf_logCall_eq_nil_iff]
    intro hc
    have h3 : (0xFFFF : Int) ≤ lvl := hc.2
    have h4 : lvl ≤ (6 : Int) := h2
    omega
  exact ⟨by decide, hnil, by rw [hnil]; rfl⟩

/-- Witness for claim C4 at the concrete level ERROR under floor DEBUG. -/
theorem zf_log_C4_witness :
    ZF_LOG_VERBOSE ≤ ZF_LOG_ERROR ∧ ZF_LOG_ERROR ≤ ZF_LOG_FATAL ∧
      ((ZF_LOG_VERBOSE < ZF_LOG_DEBUG ∧ ZF_LOG_DEBUG < ZF_LOG_INFO ∧
        ZF_LOG_INFO < ZF_LOG_WARN ∧ ZF_LOG_WARN < ZF_LOG_ERROR ∧
        ZF_LOG_ERROR < ZF_LOG_FATAL ∧ ZF_LOG_FATAL < ZF_LOG_NONE) ∧
      zf_logCall false ZF_LOG_DEBUG
        (zf_log_set_output_level ⟨2, none, true⟩ ZF_LOG_NONE)
        ZF_LOG_ERROR ⟨"f", "a.c:3", some "T"⟩ "m" = [] ∧
      countSink (zf_logCall false ZF_LOG_DEBUG
        (zf_log_set_output_level ⟨2, none, true⟩ ZF_LOG_NONE)
        ZF_LOG_ERROR ⟨"f", "a.c:3", some "T"⟩ "m") = 0) :=
  ⟨by decide, by decide,
    zf_log_C4_none_suppresses_all_real_levels false ZF_LOG_DEBUG
      ⟨2, none, true⟩ ZF_LOG_ERROR ⟨"f", "a.c:3", some "T"⟩ "m"
      (by decide) (by decide)⟩

/-- Claim C5: the compile-time floor is the per-unit override ZF_LOG_LEVEL
when defined, else the project default ZF_LOG_DEF_LEVEL when defined, else
ZF_LOG_INFO in release builds (NDEBUG defined) and ZF_LOG_DEBUG otherwise. -/
theorem zf_log_C5_floor_selection_priority (l d : Int) (b : Bool) :
    _ZF_LOG_LEVEL (some l) (some d) b = l ∧
    _ZF_LOG_LEVEL (some l) none b = l ∧
    _ZF_LOG_LEVEL none (some d) b = d ∧
    _ZF_LOG_LEVEL none none true = ZF_LOG_INFO ∧
    _ZF_LOG_LEVEL none none false = ZF_LOG_DEBUG :=
  ⟨rfl, rfl, rfl, rfl, rfl⟩

/-- The verbose-variant line contains the function name and the location. -/
theorem strContains_render_func_loc (f l : String) (etag : Option String)
    (msg : String) :
    strContains (render_line (some (f, l)) etag msg) f ∧
    strContains (render_line (some (f, l)) etag msg) l := by
  cases etag with
  | none =>
    constructor
    · exact ⟨"", " " ++ l ++ " " ++ "" ++ msg ++ "\n",
        by simp [render_line, String.append_assoc, String.empty_append]⟩
    · exact ⟨f ++ " ", " " ++ "" ++ msg ++ "\n",
        by simp [render_line, String.append_assoc, String.empty_append]⟩
  | some tg =>
    constructor
    · exact ⟨"", " " ++ l ++ " " ++ (tg ++ " ") ++ msg ++ "\n",
        by simp [render_line, String.append_assoc, String.empty_append]⟩
    · exact ⟨f ++ " ", " " ++ (tg ++ " ") ++ msg ++ "\n",
        by simp [render_line, String.append_assoc, String.empty_append]⟩

/-- Claim C6: whenever the call level reaches both the compile-time floor and
the runtime output level and a sink is registered, the sink is invoked
exactly once, with the call level, a line containing the formatted message
and the effective tag, terminated by a line feed, and a reported length equal
to the length of the line without the trailing line feed. -/
theorem zf_log_C6_sink_invoked_exactly_once (ndebug : Bool) (level : Int)
    (st : ZfLogState) (lvl : Int) (cs : CallSite) (msg : String)
    (hcb : st.callback = true) (hout : max level st.output_lvl ≤ lvl) :
    countSink (zf_logCall ndebug level st lvl cs msg) = 1 ∧
    ∃ line body len,
      Event.sinkCalled lvl line len ∈ zf_logCall ndebug level st lvl cs msg ∧
      strContains line msg ∧
      (∀ t, effective_tag st.pfx cs.tag = some t → strContains line t) ∧
      line = body ++ "\n" ∧ len = body.length := by
  obtain ⟨ha, hb⟩ := max_le_iff.mp hout
  have htr : zf_logCall ndebug level st lvl cs msg =
      Event.argsEvaluated ::
        ([Event.sinkCalled lvl
          (render_line (if ndebug then none else some (cs.func, cs.loc))
            (effective_tag st.pfx cs.tag) msg)
          ((render_line (if ndebug then none else some (cs.func, cs.loc))
            (effective_tag st.pfx cs.tag) msg).length - 1)]
        ++ (if lvl = ZF_LOG_FATAL then [Event.aborted] else [])) := by
    rw [zf_logCall_eq, if_pos ⟨ha, hb⟩]
    simp [hcb]
  constructor
  · rw [htr]
    by_cases hf : lvl = ZF_LOG_FATAL
    · simp [hf, countSink]
    · simp [hf, countSink]
  · obtain ⟨body, hb1, hb2⟩ := render_line_shape
      (if ndebug then none else some (cs.func, cs.loc))
      (effective_tag st.pfx cs.tag) msg
    refine ⟨render_line (if ndebug then none else some (cs.func, cs.loc))
        (effective_tag st.pfx cs.tag) msg, body,
      (render_line (if ndebug then none else some (cs.func, cs.loc))
        (effective_tag st.pfx cs.tag) msg).length - 1, ?_, ?_, ?_, hb1, hb2⟩
    · rw [htr]
      simp
    · exact strContains_render_msg _ _ _
    · intro t ht
      rw [ht]
      exact strContains_render_tag _ _ _

/-- Witness for claim C6: floor DEBUG, output level INFO, a registered sink
and a call at ERROR. -/
theorem zf_log_C6_witness :
    (⟨3, some "APP", true⟩ : ZfLogState).callback = true ∧
    max ZF_LOG_DEBUG (⟨3, some "APP", true⟩ : ZfLogState).output_lvl ≤
      ZF_LOG_ERROR ∧
    (countSink (zf_logCall true ZF_LOG_DEBUG ⟨3, some "APP", true⟩
        ZF_LOG_ERROR ⟨"fn", "x.c:7", some "NET"⟩ "hello") = 1 ∧
      ∃ line body len,
        Event.sinkCalled ZF_LOG_ERROR line len ∈
          zf_logCall true ZF_LOG_DEBUG ⟨3, some "APP", true⟩ ZF_LOG_ERROR
            ⟨"fn", "x.c:7", some "NET"⟩ "hello" ∧
        strContains line "hello" ∧
        (∀ t, effective_tag (some "APP") (some "NET") = some t →
          strContains line t) ∧
        line = body ++ "\n" ∧ len = body.length) :=
  ⟨rfl, by decide,
    zf_log_C6_sink_invoked_exactly_once true ZF_LOG_DEBUG
      ⟨3, some "APP", true⟩ ZF_LOG_ERROR ⟨"fn", "x.c:7", some "NET"⟩ "hello"
      rfl (by decide)⟩

/-- Claim C7: the effective tag is prefix dot tag when a non-empty prefix is
set, exactly the call-site tag when no (or an empty) prefix is set, and just
the prefix (or nothing) when the call-site tag is absent; moreover the tag is
recomputed from the current state on each call: the same call site emits a
line carrying prefix dot tag under one prefix and the bare tag when the
prefix is cleared. -/
theorem zf_log_C7_effective_tag_resolution (p t : String) (ndebug : Bool)
    (level : Int) (st : ZfLogState) (lvl : Int) (cs : CallSite) (msg : String)
    (hp : p ≠ "") (hcb : st.callback = true)
    (hout : max level st.output_lvl ≤ lvl) (htag : cs.tag = some t) :
    effective_tag (some p) (some t) = some (p ++ "." ++ t) ∧
    effective_tag none (some t) = some t ∧
    effective_tag (some "") (some t) = some t ∧
    effective_tag (some p) none = some p ∧
    effective_tag none none = none ∧
    (∃ line len, Event.sinkCalled lvl line len ∈
        zf_logCall ndebug level { st with pfx := some p } lvl cs msg ∧
      strContains line (p ++ "." ++ t)) ∧
    (∃ line len, Event.sinkCalled lvl line len ∈
        zf_logCall ndebug level { st with pfx := none } lvl cs msg ∧
      strContains line t) := by
  obtain ⟨ha, hb⟩ := max_le_iff.mp hout
  have he1 : effective_tag (some p) (some t) = some (p ++ "." ++ t) := by
    simp [effective_tag, hp]
  refine ⟨he1, rfl, by simp [effective_tag], by simp [effective_tag, hp],
    rfl, ?_, ?_⟩
  · have htr1 : zf_logCall ndebug level { st with pfx := some p } lvl cs msg =
        Event.argsEvaluated ::
          ([Event.sinkCalled lvl
            (render_line (if ndebug then none else some (cs.func, cs.loc))
              (some (p ++ "." ++ t)) msg)
            ((render_line (if ndebug then none else some (cs.func, cs.loc))
              (some (p ++ "." ++ t)) msg).length - 1)]
          ++ (if lvl = ZF_LOG_FATAL then [Event.aborted] else [])) := by
      rw [zf_logCall_eq]
      have hc1 : level ≤ lvl ∧
          ({ st with pfx := some p } : ZfLogState).output_lvl ≤ lvl := ⟨ha, hb⟩
      rw [if_pos hc1]
      simp [hcb, htag, he1]
    refine ⟨render_line (if ndebug then none else some (cs.func, cs.loc))
        (some (p ++ "." ++ t)) msg,
      (render_line (if ndebug then none else some (cs.func, cs.loc))
        (some (p ++ "." ++ t)) msg).length - 1, ?_, ?_⟩
    · rw [htr1]
      simp
    · exact strContains_render_tag _ _ _
  · have htr2 : zf_logCall ndebug level { st with pfx := none } lvl cs msg =
        Event.argsEvaluated ::
          ([Event.sinkCalled lvl
            (render_line (if ndebug then none else some (cs.func, cs.loc))
              (some t) msg)
            ((render_line (if ndebug then none else some (cs.func, cs.loc))
              (some t) msg).length - 1)]
          ++ (if lvl = ZF_LOG_FATAL then [Event.aborted] else [])) := by
      rw [zf_logCall_eq]
      have hc2 : level ≤ lvl ∧
          ({ st with pfx := none } : ZfLogState).output_lvl ≤ lvl := ⟨ha, hb⟩
      rw [if_pos hc2]
      simp [hcb, htag, effective_tag]
    refine ⟨render_line (if ndebug then none else some (cs.func, cs.loc))
        (some t) msg,
      (render_line (if ndebug then none else some (cs.func, cs.loc))
        (some t) msg).length - 1, ?_, ?_⟩
    · rw [htr2]
      simp
    · exact strContains_render_tag _ _ _

/-- Witness for claim C7 with prefix APP and call-site tag NET. -/
theorem zf_log_C7_witness :
    ("APP" : String) ≠ "" ∧
    (⟨3, none, true⟩ : ZfLogState).callback = true ∧
    max ZF_LOG_DEBUG (⟨3, none, true⟩ : ZfLogState).output_lvl ≤
      ZF_LOG_WARN ∧
    (⟨"fn", "x.c:7", some "NET"⟩ : CallSite).tag = some "NET" ∧
    (effective_tag (some "APP") (some "NET") = some ("APP" ++ "." ++ "NET") ∧
    effective_tag none (some "NET") = some "NET" ∧
    effective_tag (some "") (some "NET") = some "NET" ∧
    effective_tag (some "APP") none = some "APP" ∧
    effective_tag none none = none ∧
    (∃ line len, Event.sinkCalled ZF_LOG_WARN line len ∈
        zf_logCall false ZF_LOG_DEBUG
          { (⟨3, none, true⟩ : ZfLogState) with pfx := some "APP" }
          ZF_LOG_WARN ⟨"fn", "x.c:7", some "NET"⟩ "msg" ∧
      strContains line ("APP" ++ "." ++ "NET")) ∧
    (∃ line len, Event.sinkCalled ZF_LOG_WARN line len ∈
        zf_logCall false ZF_LOG_DEBUG
          { (⟨3, none, true⟩ : ZfLogState) with pfx := none }
          ZF_LOG_WARN ⟨"fn", "x.c:7", some "NET"⟩ "msg" ∧
      strContains line "NET")) :=
  ⟨by decide, rfl, by decide, rfl,
    zf_log_C7_effective_tag_resolution "APP" "NET" false ZF_LOG_DEBUG
      ⟨3, none, true⟩ ZF_LOG_WARN ⟨"fn", "x.c:7", some "NET"⟩ "msg"
      (by decide) rfl (by decide) rfl⟩

/-- Claim C8: when NDEBUG is undefined an emitted line carries the function
name and the file:line location of the call site, and when NDEBUG is defined
the emitted events are entirely independent of the call-site metadata: two
call sites differing only in function name and location produce identical
events. -/
theorem zf_log_C8_callsite_metadata (level : Int) (st : ZfLogState)
    (lvl : Int) (cs cs2 : CallSite) (msg : String)
    (hcb : st.callback = true) (hout : max level st.output_lvl ≤ lvl)
    (htag : cs.tag = cs2.tag) :
    (∃ line len,
      Event.sinkCalled lvl line len ∈ zf_logCall false level st lvl cs msg ∧
      strContains line cs.func ∧ strContains line cs.loc) ∧
    zf_logCall true level st lvl cs msg =
      zf_logCall true level st lvl cs2 msg := by
  obtain ⟨ha, hb⟩ := max_le_iff.mp hout
  constructor
  · have htr : zf_logCall false level st lvl cs msg =
        Event.argsEvaluated ::
          ([Event.sinkCalled lvl
            (render_line (some (cs.func, cs.loc))
              (effective_tag st.pfx cs.tag) msg)
            ((render_line (some (cs.func, cs.loc))
              (effective_tag st.pfx cs.tag) msg).length - 1)]
          ++ (if lvl = ZF_LOG_FATAL then [Event.aborted] else [])) := by
      rw [zf_logCall_eq, if_pos ⟨ha, hb⟩]
      simp [hcb]
    refine ⟨render_line (some (cs.func, cs.loc))
        (effective_tag st.pfx cs.tag) msg,
      (render_line (some (cs.func, cs.loc))
        (effective_tag st.pfx cs.tag) msg).length - 1, ?_, ?_, ?_⟩
    · rw [htr]
      simp
    · exact (strContains_render_func_loc cs.func cs.loc
        (effective_tag st.pfx cs.tag) msg).1
    · exact (strContains_render_func_loc cs.func cs.loc
        (effective_tag st.pfx cs.tag) msg).2
  · rw [zf_logCall_eq, zf_logCall_eq, htag]
    simp

/-- Witness for claim C8 with two call sites sharing a tag. -/
theorem zf_log_C8_witness :
    (⟨2, some "P", true⟩ : ZfLogState).callback = true ∧
    max ZF_LOG_DEBUG (⟨2, some "P", true⟩ : ZfLogState).output_lvl ≤
      ZF_LOG_INFO ∧
    (⟨"fn1", "a.c:5", some "T"⟩ : CallSite).tag =
      (⟨"fn2", "b.c:9", some "T"⟩ : CallSite).tag ∧
    ((∃ line len,
      Event.sinkCalled ZF_LOG_INFO line len ∈
        zf_logCall false ZF_LOG_DEBUG ⟨2, some "P", true⟩ ZF_LOG_INFO
          ⟨"fn1", "a.c:5", some "T"⟩ "started" ∧
      strContains line (⟨"fn1", "a.c:5", some "T"⟩ : CallSite).func ∧
      strContains line (⟨"fn1", "a.c:5", some "T"⟩ : CallSite).loc) ∧
    zf_logCall true ZF_LOG_DEBUG ⟨2, some "P", true⟩ ZF_LOG_INFO
        ⟨"fn1", "a.c:5", some "T"⟩ "started" =
      zf_logCall true ZF_LOG_DEBUG ⟨2, some "P", true⟩ ZF_LOG_INFO
        ⟨"fn2", "b.c:9", some "T"⟩ "started") :=
  ⟨rfl, by decide, rfl,
    zf_log_C8_callsite_metadata ZF_LOG_DEBUG ⟨2, some "P", true⟩ ZF_LOG_INFO
      ⟨"fn1", "a.c:5", some "T"⟩ ⟨"fn2", "b.c:9", some "T"⟩ "started"
      rfl (by decide) rfl⟩

/-- Claim C9: a call below FATAL never aborts the process; a FATAL call that
passes both gates with a registered sink dispatches the message first and
aborts only afterwards (the abort event is last, after the sink event); and
a FATAL call suppressed by output level NONE does not abort. -/
theorem zf_log_C9_abort_only_after_fatal_dispatch (ndebug : Bool)
    (level : Int) (st : ZfLogState) (lvl : Int) (cs : CallSite) (msg : String)
    (h : lvl < ZF_LOG_FATAL) (hcb : st.callback = true)
    (hf : max level st.output_lvl ≤ ZF_LOG_FATAL) :
    Event.aborted ∉ zf_logCall ndebug level st lvl cs msg ∧
    (∃ line len, zf_logCall ndebug level st ZF_LOG_FATAL cs msg =
      [Event.argsEvaluated, Event.sinkCalled ZF_LOG_FATAL line len,
        Event.aborted]) ∧
    Event.aborted ∉ zf_logCall ndebug level
      (zf_log_set_output_level st ZF_LOG_NONE) ZF_LOG_FATAL cs msg := by
  obtain ⟨ha, hb⟩ := max_le_iff.mp hf
  have hne : ¬(lvl = ZF_LOG_FATAL) := by
    intro hh
    rw [hh] at h
    exact lt_irrefl _ h
  refine ⟨?_, ?_, ?_⟩
  · rw [zf_logCall_eq]
    by_cases hc : level ≤ lvl ∧ st.output_lvl ≤ lvl
    · rw [if_pos hc]
      by_cases hc2 : st.callback <;> simp [hc2, hne]
    · rw [if_neg hc]
      exact List.not_mem_nil _
  · have htr : zf_logCall ndebug level st ZF_LOG_FATAL cs msg =
        Event.argsEvaluated ::
          ([Event.sinkCalled ZF_LOG_FATAL
            (render_line (if ndebug then none else some (cs.func, cs.loc))
              (effective_tag st.pfx cs.tag) msg)
            ((render_line (if ndebug then none else some (cs.func, cs.loc))
              (effective_tag st.pfx cs.tag) msg).length - 1)]
          ++ [Event.aborted]) := by
      rw [zf_logCall_eq, if_pos ⟨ha, hb⟩]
      simp [hcb]
    refine ⟨render_line (if ndebug then none else some (cs.func, cs.loc))
        (effective_tag st.pfx cs.tag) msg,
      (render_line (if ndebug then none else some (cs.func, cs.loc))
        (effective_tag st.pfx cs.tag) msg).length - 1, ?_⟩
    rw [htr]
    rfl
  · have hnil : zf_logCall ndebug level
        (zf_log_set_output_level st ZF_LOG_NONE) ZF_LOG_FATAL cs msg = [] := by
      rw [zf_logCall_eq_nil_iff]
      intro hc
      have h3 : (65535 : Int) ≤ 6 := hc.2
      omega
    rw [hnil]
    exact List.not_mem_nil _

/-- Witness for claim C9 at the concrete level WARN under floor DEBUG with
output level INFO. -/
theorem zf_log_C9_witness :
    ZF_LOG_WARN < ZF_LOG_FATAL ∧
    (⟨3, none, true⟩ : ZfLogState).callback = true ∧
    max ZF_LOG_DEBUG (⟨3, none, true⟩ : ZfLogState).output_lvl ≤
      ZF_LOG_FATAL ∧
    (Event.aborted ∉ zf_logCall false ZF_LOG_DEBUG ⟨3, none, true⟩
        ZF_LOG_WARN ⟨"fn", "x.c:7", some "T"⟩ "w" ∧
    (∃ line len, zf_logCall false ZF_LOG_DEBUG ⟨3, none, true⟩ ZF_LOG_FATAL
        ⟨"fn", "x.c:7", some "T"⟩ "w" =
      [Event.argsEvaluated, Event.sinkCalled ZF_LOG_FATAL line len,
        Event.aborted]) ∧
    Event.aborted ∉ zf_logCall false ZF_LOG_DEBUG
      (zf_log_set_output_level ⟨3, none, true⟩ ZF_LOG_NONE) ZF_LOG_FATAL
      ⟨"fn", "x.c:7", some "T"⟩ "w") :=
  ⟨by decide, rfl, by decide,
    zf_log_C9_abort_only_after_fatal_dispatch false ZF_LOG_DEBUG
      ⟨3, none, true⟩ ZF_LOG_WARN ⟨"fn", "x.c:7", some "T"⟩ "w"
      (by decide) rfl (by decide)⟩
